import Mathlib

/-!
Verification development for the stored-procedure transpiler in bin/main.ts.
The TypeScript functions are shallowly embedded as Lean definitions; external
collaborators (the TypeScript type checker, the rollup bundler, the
filesystem) are modelled as explicit inputs and event traces.
-/

namespace Spt

/-- Translation of the Diagnostics record: a batch of human-readable
compiler or bundler messages. -/
structure Diagnostics where
  messages : List String
deriving DecidableEq, Repr

/-- Translation of Sym: one serialized parameter symbol, holding the
source-level name, documentation text and resolved type name. -/
structure Sym where
  name : String
  doc : String
  type : String
deriving DecidableEq, Repr

/-- Translation of Sig: one serialized call signature. -/
structure Sig where
  params : List Sym
  returnType : String
  doc : String
deriving DecidableEq, Repr

/-- A truthy non-string value that an object-literal lookup finds on
Object.prototype instead of among the own entries of the literal: for the
key constructor it is the Object function, for the accessor __proto__ it is
the Object.prototype object, and for the remaining keys it is the built-in
method of that name. -/
structure ProtoValue where
  key : String
deriving DecidableEq, Repr

/-- The property names every object literal inherits from Object.prototype.
Looking any of these up on a literal that does not define them as own keys
yields a truthy value that is not a string. -/
def objectPrototypeKeys : List String :=
  ["constructor", "hasOwnProperty", "isPrototypeOf", "propertyIsEnumerable",
   "toLocaleString", "toString", "valueOf",
   "__defineGetter__", "__defineSetter__", "__lookupGetter__", "__lookupSetter__",
   "__proto__"]

/-- What a lookup result interpolates to inside a template literal: a string
interpolates as itself, and a value inherited from Object.prototype is
coerced by ToString: the __proto__ accessor yields the Object.prototype
object, which prints as a plain object, the constructor entry is the Object
function, and the remaining entries are built-in methods printing with a
native-code body. -/
def interpolate : String ⊕ ProtoValue → String
  | Sum.inl s => s
  | Sum.inr p =>
    if p.key = "__proto__" then "[object Object]"
    else if p.key = "constructor" then "function Object() \x7b [native code] \x7d"
    else "function " ++ p.key ++ "() \x7b [native code] \x7d"

/-- Translation of Param: a target-facing SQL parameter. The type field
holds the value of the mapToSQL lookup, which is a string for own entries
and the fallback, but a non-string inherited value for Object.prototype
property names. -/
structure Param where
  name : String
  type : String ⊕ ProtoValue
deriving DecidableEq, Repr

/-- Translation of the Rights enum. -/
inductive Rights where
  | NOT_SPECIFIED
  | CALLER
  | OWNER
deriving DecidableEq, Repr

/-- Translation of the StoredProcedure record. The returnType and rights
fields hold the raw lookup values, which for Object.prototype property
names are inherited non-string, non-enum values. -/
structure StoredProcedure where
  name : String
  params : List Param
  returnType : String ⊕ ProtoValue
  rights : Rights ⊕ ProtoValue
deriving DecidableEq, Repr

/-- A JSDoc tag as consumed by runAs and storedProcedureTag. The comment
field is some string when tag.comment is a string, and none when it is
undefined or a non-string node array, matching the isString guard in runAs. -/
structure JSDocTag where
  tagName : String
  comment : Option String
deriving DecidableEq, Repr

/-- A function declaration as seen through the type checker: its identifier
text, the JSDoc tags collected by jsTags, and the call signatures that
checker.getTypeAtLocation(decl).getCallSignatures() resolves, already
serialized by serializeSignature. -/
structure FunctionDeclaration where
  name : String
  tags : List JSDocTag
  signatures : List Sig
deriving DecidableEq, Repr

/-- Translation of the STORED_PROCEDURE_TAG constant. -/
def STORED_PROCEDURE_TAG : String := "sf_stored_procedure"

/-- Model of the toUpperCase string method: uppercase every character.
Written by structural recursion over the character list so that it
evaluates inside the kernel. -/
def toUpperCase (s : String) : String := String.mk (s.data.map Char.toUpper)

/-- Translation of mapToSQL: the property lookup on the table literal
followed by the truthiness fallback to the object entry. Own keys are tried
first; a key the literal does not define as its own is then found on
Object.prototype when it names one of its properties, and every such
inherited value is truthy, so it is returned as is, a non-string; only when
the lookup yields undefined does the fallback VARIANT apply. -/
def mapToSQL (dataType : String) : String ⊕ ProtoValue :=
  if dataType = "string" then Sum.inl "STRING"
  else if dataType = "number" then Sum.inl "NUMBER"
  else if dataType = "Date" then Sum.inl "TIMESTAMP_LTZ"
  else if dataType = "boolean" then Sum.inl "BOOLEAN"
  else if dataType = "object" then Sum.inl "VARIANT"
  else if dataType = "array" then Sum.inl "ARRAY"
  else if dataType = "json" then Sum.inl "VARIANT"
  else if dataType ∈ objectPrototypeKeys then Sum.inr { key := dataType }
  else Sum.inl "VARIANT"

/-- Translation of runAs: a non-string or missing comment is treated as the
empty string, then the two-entry literal is consulted: its own keys first,
then the properties the literal inherits from Object.prototype, whose
truthy values pass the truthiness fallback and are returned as is; only an
undefined lookup falls back to NOT_SPECIFIED. -/
def runAs (tag : JSDocTag) : Rights ⊕ ProtoValue :=
  let comment := match tag.comment with
    | some s => s
    | none => ""
  if comment = "caller" then Sum.inl Rights.CALLER
  else if comment = "owner" then Sum.inl Rights.OWNER
  else if comment ∈ objectPrototypeKeys then Sum.inr { key := comment }
  else Sum.inl Rights.NOT_SPECIFIED

/-- Translation of storedProcedureTag: the first JSDoc tag whose name is the
procedure marker. -/
def storedProcedureTag (decl : FunctionDeclaration) : Option JSDocTag :=
  decl.tags.find? fun tag => tag.tagName == STORED_PROCEDURE_TAG

/-- Translation of the isStoredProcedure predicate used by the declaration
scanner. -/
def isStoredProcedure (decl : FunctionDeclaration) : Bool :=
  decl.tags.any fun tag => tag.tagName == STORED_PROCEDURE_TAG

/-- Translation of storedProcedure. A thrown error is modelled as the error
side of Except. The first arm requires exactly one call signature; otherwise
the function throws the descriptive signature-count error. When the marker
tag is absent, runAs in the source dereferences undefined and a TypeError is
thrown; that path is unreachable for the eligible declarations this function
is invoked on. -/
def storedProcedure (decl : FunctionDeclaration) : Except String StoredProcedure :=
  match decl.signatures with
  | [sig] =>
    match storedProcedureTag decl with
    | some tag =>
      Except.ok
        { name := decl.name
          params := (sig.params.drop 1).map fun p =>
            { name := toUpperCase p.name, type := mapToSQL p.type }
          returnType :=
            if sig.returnType ≠ "void" then mapToSQL sig.returnType else Sum.inl "VARIANT NULL"
          rights := runAs tag }
    | none => Except.error "TypeError: cannot read comment of undefined"
  | sigs =>
    Except.error ("Function " ++ decl.name ++ " has " ++ toString sigs.length ++ " signatures ?!")

/-- Helper for the throwing map in storedProcedures: the first thrown error
aborts the traversal, as an exception aborts Array.prototype.map. -/
def mapExcept {α β : Type} (f : α → Except String β) : List α → Except String (List β)
  | [] => Except.ok []
  | a :: rest =>
    match f a with
    | Except.error e => Except.error e
    | Except.ok b =>
      match mapExcept f rest with
      | Except.error e => Except.error e
      | Except.ok bs => Except.ok (b :: bs)

/-- Translation of storedProcedures: scan the top-level declarations for the
marker and build one descriptor per eligible declaration. -/
def storedProcedures (decls : List FunctionDeclaration) : Except String (List StoredProcedure) :=
  mapExcept storedProcedure (decls.filter isStoredProcedure)

/-- Reverse enum mapping used by sqlRights for the interpolation of
Rights[rights]. -/
def rightsName : Rights → String
  | Rights.NOT_SPECIFIED => "NOT_SPECIFIED"
  | Rights.CALLER => "CALLER"
  | Rights.OWNER => "OWNER"

/-- Translation of sqlRights. The strict-equality test against the
NOT_SPECIFIED number is false for an inherited Object.prototype value, so
the clause is rendered, and the reverse enum lookup indexed by that
non-enum value is undefined, which interpolates as the text undefined. -/
def sqlRights (rights : Rights ⊕ ProtoValue) : String :=
  match rights with
  | Sum.inl r => if r = Rights.NOT_SPECIFIED then "" else " execute as " ++ rightsName r
  | Sum.inr _ => " execute as undefined"

/-- Translation of sqlSignature; the parameter type and return type are
interpolated into the template literal by the ToString coercion. -/
def sqlSignature (sp : StoredProcedure) : String :=
  sp.name ++ "("
    ++ String.intercalate ", " (sp.params.map fun p => p.name ++ " " ++ interpolate p.type)
    ++ ")" ++ " returns " ++ interpolate sp.returnType

/-- Strip one carriage return that was consumed together with a newline by
the separator pattern of bundle.split. -/
def dropCR (s : String) : String :=
  if s.data.getLast? = some (Char.ofNat 13) then String.mk s.data.dropLast else s

/-- Split a character list at every newline character. The result is always
nonempty: a string with no newline yields one piece. -/
def splitCharsOnNL : List Char → List (List Char)
  | [] => [[]]
  | c :: rest =>
    let r := splitCharsOnNL rest
    if c = Char.ofNat 10 then [] :: r
    else
      match r with
      | [] => [[c]]
      | h :: t => (c :: h) :: t

/-- Translation of the split of the bundle on the optional-carriage-return
newline pattern: split on the newline character, then remove the carriage
return that preceded each consumed newline. The final piece is not followed
by a newline, so a carriage return there is kept. -/
def splitLines (s : String) : List String :=
  match (splitCharsOnNL s.data).map String.mk with
  | [] => []
  | parts => parts.dropLast.map dropCR ++ [parts.getLast!]

/-- Translation of the spCode template literal built inside pack. -/
def spCode (sp : StoredProcedure) (bundle : String) : String :=
  "create or replace procedure " ++ sqlSignature sp ++ " language javascript"
    ++ sqlRights sp.rights ++ " as $$\n    let __result = null;\n\n    "
    ++ String.intercalate "\n    " (splitLines bundle) ++ "\n    return __result;\n$$;"

/-- One observable filesystem action of pack. -/
inductive FsEvent where
  | mkdtemp (dir : String)
  | bundlerCall (dir : String)
  | rm (dir : String) (recursive : Bool)
deriving DecidableEq, Repr

/-- The unique scratch directory name produced by the i-th mkdtemp call:
mkdtemp appends a fresh random suffix to the temp- stem, modelled by the
loop index, which preserves exactly the uniqueness guarantee. -/
def tmpName (i : Nat) : String := "temp-" ++ toString i

/-- The shape of the bundler passed to pack, as call_rollup exposes it:
given the scratch directory, the input file name and a descriptor it either
throws (error side), returns diagnostics, or returns the bundled script. -/
def Bundler : Type :=
  String → String → StoredProcedure → Except String (String ⊕ Diagnostics)

/-- Prepend one rendered statement to the result of the remaining loop
iterations, preserving a later thrown error or diagnostics return. -/
def consCode (code : String) :
    Except String ((List String) ⊕ Diagnostics) → Except String ((List String) ⊕ Diagnostics)
  | Except.ok (Sum.inl codes) => Except.ok (Sum.inl (code :: codes))
  | r => r

/-- Translation of the loop body of pack, with the filesystem actions made
explicit as an event trace. Per descriptor: mkdtemp, then the bundler call;
when the bundler returns diagnostics pack returns them at once, and when it
throws the exception propagates; in both of those cases no rm of the scratch
directory happens. Only on the success path, after the statement is
rendered, is the scratch directory recursively removed. -/
def packGo (bundler : Bundler) (fileName : String) :
    List StoredProcedure → Nat → Except String ((List String) ⊕ Diagnostics) × List FsEvent
  | [], _ => (Except.ok (Sum.inl []), [])
  | sp :: rest, i =>
    match bundler (tmpName i) fileName sp with
    | Except.error e =>
      (Except.error e, [FsEvent.mkdtemp (tmpName i), FsEvent.bundlerCall (tmpName i)])
    | Except.ok (Sum.inr diag) =>
      (Except.ok (Sum.inr diag), [FsEvent.mkdtemp (tmpName i), FsEvent.bundlerCall (tmpName i)])
    | Except.ok (Sum.inl bundle) =>
      (consCode (spCode sp bundle) (packGo bundler fileName rest (i + 1)).1,
       FsEvent.mkdtemp (tmpName i) :: FsEvent.bundlerCall (tmpName i)
         :: FsEvent.rm (tmpName i) true :: (packGo bundler fileName rest (i + 1)).2)

/-- Translation of pack. -/
def pack (bundler : Bundler) (fileName : String) (sprocs : List StoredProcedure) :
    Except String ((List String) ⊕ Diagnostics) × List FsEvent :=
  packGo bundler fileName sprocs 0

/-- One element of the rollup output array: a code chunk or an asset. -/
inductive OutputItem where
  | chunk (code : String)
  | asset
deriving DecidableEq, Repr

/-- Translation of the isChunk predicate in call_rollup. -/
def isChunk : OutputItem → Bool
  | OutputItem.chunk _ => true
  | OutputItem.asset => false

/-- The code of a chunk; only applied to items that passed isChunk. -/
def chunkCode : OutputItem → String
  | OutputItem.chunk code => code
  | OutputItem.asset => ""

/-- The rollup build object returned by the top-level rollup call, reduced
to the one capability call_rollup uses: generating output, which either
yields the output array or throws. -/
structure RollupBuild where
  generateResult : Except String (List OutputItem)

/-- Translation of the moduleName computed in call_rollup from the input
file name. -/
def moduleName (fileName : String) : String :=
  fileName.dropRight 3 ++ ".js"

/-- Translation of the entry-point script text that call_rollup writes to
use.js in the scratch directory. -/
def use_js (moduleNm : String) (sp : StoredProcedure) : String :=
  let args := "snowflake" ++ String.join (sp.params.map fun p => ", " ++ p.name)
  "import \x7b" ++ sp.name ++ "\x7d from \x27../" ++ moduleNm ++ "\x27\n__result = "
    ++ sp.name ++ "(" ++ args ++ ")"

/-- Translation of call_rollup, parameterized by the outcome of the
top-level rollup build call. The first component is the entry script written
to the scratch directory. The rollup build call sits outside the try block:
when it throws, the error side propagates. Only an error thrown by generate
inside the try block is caught and converted to Diagnostics; on success the
chunk codes are concatenated. -/
def call_rollup (rollupResult : Except String RollupBuild) (tmpDir fileName : String)
    (sp : StoredProcedure) : String × Except String (String ⊕ Diagnostics) :=
  (use_js (moduleName fileName) sp,
   match rollupResult with
   | Except.error e => Except.error e
   | Except.ok bundle =>
     match bundle.generateResult with
     | Except.error e => Except.ok (Sum.inr { messages := [e] })
     | Except.ok output =>
       Except.ok (Sum.inl (String.join ((output.filter isChunk).map chunkCode))))

/-- The per-module inputs that compile obtains from the external type
checker: the input file name, the pre-emit diagnostics already converted to
messages, whether the source file node was found, the top-level declarations
with their resolved signatures, and the emit outcome. -/
structure ModuleInput where
  fileName : String
  preEmitDiags : Diagnostics
  sourceFileFound : Bool
  decls : List FunctionDeclaration
  emitSkipped : Bool
  emitDiags : Diagnostics
deriving DecidableEq, Repr

/-- Translation of compile: missing source file yields the pre-emit
diagnostics; the scanner may throw through storedProcedures; zero eligible
declarations short-circuit to an empty success; a skipped emit yields the
concatenated diagnostics; otherwise the result of pack is returned. -/
def compile (bundler : Bundler) (m : ModuleInput) :
    Except String ((List String) ⊕ Diagnostics) :=
  if !m.sourceFileFound then Except.ok (Sum.inr m.preEmitDiags)
  else
    match storedProcedures m.decls with
    | Except.error e => Except.error e
    | Except.ok sprocs =>
      if sprocs.length = 0 then Except.ok (Sum.inl [])
      else if m.emitSkipped then
        Except.ok (Sum.inr { messages := m.preEmitDiags.messages ++ m.emitDiags.messages })
      else (pack bundler m.fileName sprocs).1

/-- Translation of the isDiagnostics runtime type guard: in the embedding
the Sum tag carries the information the structural check recovers. -/
def isDiagnostics : (List String) ⊕ Diagnostics → Bool
  | Sum.inr _ => true
  | Sum.inl _ => false

/-- The Diagnostics side of a module outcome, used for the filter over
compilation results in main. -/
def diagPart : (List String) ⊕ Diagnostics → Option Diagnostics
  | Sum.inr d => some d
  | Sum.inl _ => none

/-- The statements side of a module outcome, used for the flatMap over
compilation results in main. -/
def okPart : (List String) ⊕ Diagnostics → List String
  | Sum.inl xs => xs
  | Sum.inr _ => []

/-- Model of Promise.all over the module pipelines: it resolves with all
values in input order, and rejects as soon as any input rejects. Timing
nondeterminism is abstracted: the model rejects with the earliest rejection
in input order. -/
def promiseAll {α : Type} : List (Except String α) → Except String (List α)
  | [] => Except.ok []
  | Except.error e :: _ => Except.error e
  | Except.ok a :: rest =>
    match promiseAll rest with
    | Except.error e => Except.error e
    | Except.ok as => Except.ok (a :: as)

/-- What the process writes and returns: the exit code returned by main,
the strings passed to console.log (each printed with a final newline), and
the diagnostic lines written to standard error (each written with a final
newline). -/
structure RunOutput where
  exitCode : Nat
  stdout : List String
  stderr : List String
deriving DecidableEq, Repr

/-- Translation of the aggregation tail of main, after Promise.all has
delivered all module outcomes. -/
def mainAgg (rs : List ((List String) ⊕ Diagnostics)) : RunOutput :=
  let errors := rs.filterMap diagPart
  if 0 < errors.length then
    { exitCode := 1, stdout := [], stderr := errors.flatMap Diagnostics.messages }
  else
    let texts := rs.flatMap okPart
    { exitCode := 0,
      stdout := [String.intercalate "\n\n\n" (texts.filter fun s => 0 < s.length)],
      stderr := [] }

/-- Translation of main, over the per-module compile results: awaiting
Promise.all rethrows any rejection, and only when every pipeline completed
with a value does the aggregation run. -/
def main (results : List (Except String ((List String) ⊕ Diagnostics))) :
    Except String RunOutput :=
  match promiseAll results with
  | Except.error e => Except.error e
  | Except.ok rs => Except.ok (mainAgg rs)

/-- Concrete signature: the output_message example, a connection parameter
followed by one string parameter. -/
def sigC1 : Sig :=
  { params := [{ name := "snowflake", doc := "", type := "Snowflake" },
               { name := "message", doc := "", type := "string" }],
    returnType := "string", doc := "" }

/-- Concrete marker tag with no trailing comment. -/
def tagC1 : JSDocTag := { tagName := "sf_stored_procedure", comment := none }

/-- Concrete eligible declaration for the output_message example. -/
def declC1 : FunctionDeclaration :=
  { name := "output_message", tags := [tagC1], signatures := [sigC1] }

/-- The descriptor storedProcedure builds for declC1. -/
def spC1 : StoredProcedure :=
  { name := "output_message",
    params := [{ name := "MESSAGE", type := Sum.inl "STRING" }],
    returnType := Sum.inl "STRING", rights := Sum.inl Rights.NOT_SPECIFIED }

/-- Concrete marker tag carrying the caller comment. -/
def tagCaller : JSDocTag := { tagName := "sf_stored_procedure", comment := some "caller" }

/-- Concrete signature with only the connection parameter. -/
def sigConnOnly : Sig :=
  { params := [{ name := "snowflake", doc := "", type := "Snowflake" }],
    returnType := "string", doc := "" }

/-- Concrete eligible declaration annotated with caller rights. -/
def declCaller : FunctionDeclaration :=
  { name := "caller_fun", tags := [tagCaller], signatures := [sigConnOnly] }

/-- The descriptor storedProcedure builds for declCaller. -/
def spCaller : StoredProcedure :=
  { name := "caller_fun", params := [], returnType := Sum.inl "STRING",
    rights := Sum.inl Rights.CALLER }

/-- Concrete marker tag whose comment names an Object.prototype property. -/
def tagProto : JSDocTag := { tagName := "sf_stored_procedure", comment := some "toString" }

/-- Concrete eligible declaration whose rights comment is toString. -/
def declProto : FunctionDeclaration :=
  { name := "proto_fun", tags := [tagProto], signatures := [sigConnOnly] }

/-- The descriptor storedProcedure builds for declProto: the rights lookup
finds the inherited toString method. -/
def spProto : StoredProcedure :=
  { name := "proto_fun", params := [], returnType := Sum.inl "STRING",
    rights := Sum.inr { key := "toString" } }

/-- Concrete signature with a mixed-case parameter and a void return. -/
def sigC10 : Sig :=
  { params := [{ name := "snowflake", doc := "", type := "Snowflake" },
               { name := "Amount_usd", doc := "", type := "number" }],
    returnType := "void", doc := "" }

/-- Concrete eligible declaration with a mixed-case identifier. -/
def declC10 : FunctionDeclaration :=
  { name := "Current_Total", tags := [tagC1], signatures := [sigC10] }

/-- The descriptor storedProcedure builds for declC10. -/
def spC10 : StoredProcedure :=
  { name := "Current_Total",
    params := [{ name := "AMOUNT_USD", type := Sum.inl "NUMBER" }],
    returnType := Sum.inl "VARIANT NULL", rights := Sum.inl Rights.NOT_SPECIFIED }

/-- Concrete marked declaration whose type resolves to zero call
signatures. -/
def declAmbig : FunctionDeclaration :=
  { name := "f", tags := [tagC1], signatures := [] }

/-- A bundler that always succeeds with a fixed script. -/
def inlBundler : Bundler := fun _ _ _ => Except.ok (Sum.inl "B")

/-- A bundler that always returns diagnostics. -/
def diagBundler : Bundler := fun _ _ _ =>
  Except.ok (Sum.inr { messages := ["bundling failed"] })

/-- A rollup build whose generate call returns no output items. -/
def rbEmpty : RollupBuild := { generateResult := Except.ok [] }

/-- A rollup build whose generate call throws. -/
def rbGenErr : RollupBuild := { generateResult := Except.error "gen boom" }

/-- Module input containing the zero-signature declaration. -/
def moduleAmbig : ModuleInput :=
  { fileName := "bad.ts", preEmitDiags := { messages := [] }, sourceFileFound := true,
    decls := [declAmbig], emitSkipped := false, emitDiags := { messages := [] } }

/-- Module input with no declarations at all. -/
def moduleClean : ModuleInput :=
  { fileName := "good.ts", preEmitDiags := { messages := [] }, sourceFileFound := true,
    decls := [], emitSkipped := false, emitDiags := { messages := [] } }

/-- With a unique call signature and the marker tag present, storedProcedure
returns the assembled descriptor. -/
theorem storedProcedure_ok_eq (decl : FunctionDeclaration) (sig : Sig) (tag : JSDocTag)
    (hsig : decl.signatures = [sig]) (htag : storedProcedureTag decl = some tag) :
    storedProcedure decl = Except.ok
      { name := decl.name
        params := (sig.params.drop 1).map fun p =>
          { name := toUpperCase p.name, type := mapToSQL p.type }
        returnType :=
          if sig.returnType ≠ "void" then mapToSQL sig.returnType else Sum.inl "VARIANT NULL"
        rights := runAs tag } := by
  unfold storedProcedure
  rw [hsig, htag]

/-- Without a unique call signature, storedProcedure throws the descriptive
signature-count error. -/
theorem storedProcedure_error_of_count (decl : FunctionDeclaration)
    (h : decl.signatures.length ≠ 1) :
    storedProcedure decl = Except.error
      ("Function " ++ decl.name ++ " has " ++ toString decl.signatures.length
        ++ " signatures ?!") := by
  cases hl : decl.signatures with
  | nil =>
    unfold storedProcedure
    rw [hl]
  | cons a tail =>
    cases tail with
    | nil => exact absurd (by simp [hl]) h
    | cons b t =>
      unfold storedProcedure
      rw [hl]

/-- A thrown error at any element aborts the throwing map. -/
theorem mapExcept_error_of_mem {α β : Type} {f : α → Except String β} {a : α} {l : List α}
    (ha : a ∈ l) (he : ∃ e, f a = Except.error e) :
    ∃ e2, mapExcept f l = Except.error e2 := by
  induction l with
  | nil => cases ha
  | cons b rest ih =>
    cases hb : f b with
    | error e1 => exact ⟨e1, by simp [mapExcept, hb]⟩
    | ok bb =>
      rcases List.mem_cons.mp ha with h1 | h2
      · obtain ⟨e, hfa⟩ := he
        rw [h1] at hfa
        exact Except.noConfusion (hb ▸ hfa)
      · obtain ⟨e2, h3⟩ := ih h2
        exact ⟨e2, by simp [mapExcept, hb, h3]⟩

/-- A marked declaration on which storedProcedure throws makes the whole
scanner throw. -/
theorem storedProcedures_error_of_mem {decl : FunctionDeclaration}
    {decls : List FunctionDeclaration} (hmem : decl ∈ decls)
    (helig : isStoredProcedure decl = true)
    (he : ∃ e, storedProcedure decl = Except.error e) :
    ∃ e2, storedProcedures decls = Except.error e2 :=
  mapExcept_error_of_mem (List.mem_filter.mpr ⟨hmem, helig⟩) he

/-- A rejected input makes the whole Promise.all reject. -/
theorem promiseAll_error_of_mem {α : Type} {e : String} {l : List (Except String α)}
    (h : Except.error e ∈ l) : ∃ e2, promiseAll l = Except.error e2 := by
  induction l with
  | nil => cases h
  | cons x rest ih =>
    cases x with
    | error e1 => exact ⟨e1, rfl⟩
    | ok a =>
      rcases List.mem_cons.mp h with h1 | h2
      · exact Except.noConfusion h1
      · obtain ⟨e2, h3⟩ := ih h2
        exact ⟨e2, by simp [promiseAll, h3]⟩

/-- Promise.all over inputs that all complete resolves with the values in
input order. -/
theorem promiseAll_map_ok {α : Type} (rs : List α) :
    promiseAll (rs.map Except.ok) = Except.ok rs := by
  induction rs with
  | nil => rfl
  | cons r rest ih => simp [promiseAll, ih]

/-- The error filter in main is nonempty exactly when some outcome is a
Diagnostics value. -/
theorem filterMap_diag_length_pos (rs : List ((List String) ⊕ Diagnostics)) :
    (0 < (rs.filterMap diagPart).length) ↔ rs.any isDiagnostics = true := by
  induction rs with
  | nil => simp
  | cons r rest ih =>
    cases r with
    | inl xs => simpa [diagPart, isDiagnostics] using ih
    | inr d => simp [diagPart, isDiagnostics]

/-- C1 counterexample: for the output_message example, whose source-level
parameter name is message, the entry script materialized by call_rollup
references the parameter by the uppercased SQL name MESSAGE, so the script
the claim predicts (with the original source-level name) is not the script
the code writes. -/
theorem c1_entry_args_use_sql_names_cex :
    storedProcedure declC1 = Except.ok spC1 ∧
    (call_rollup (Except.ok rbEmpty) "temp-0" "output_message.ts" spC1).1 =
      "import \x7boutput_message\x7d from \x27../output_message.js\x27\n__result = output_message(snowflake, MESSAGE)" ∧
    (call_rollup (Except.ok rbEmpty) "temp-0" "output_message.ts" spC1).1 ≠
      "import \x7boutput_message\x7d from \x27../output_message.js\x27\n__result = output_message(snowflake, message)" := by
  refine ⟨rfl, rfl, ?_⟩
  decide

/-- C1 (amended): the entry script imports the declared function, calls it
with the platform connection object snowflake as first argument followed by
the declared parameters in declaration order, each referenced by its
uppercased SQL name, and assigns the result to __result. -/
theorem c1_entry_script_shape (rollupResult : Except String RollupBuild)
    (tmpDir fileName : String) (decl : FunctionDeclaration) (sig : Sig) (tag : JSDocTag)
    (sp : StoredProcedure) (hsig : decl.signatures = [sig])
    (htag : storedProcedureTag decl = some tag)
    (hsp : storedProcedure decl = Except.ok sp) :
    (call_rollup rollupResult tmpDir fileName sp).1 =
      "import \x7b" ++ decl.name ++ "\x7d from \x27../" ++ moduleName fileName
        ++ "\x27\n__result = " ++ decl.name ++ "("
        ++ ("snowflake"
            ++ String.join ((sig.params.drop 1).map fun p => ", " ++ toUpperCase p.name))
        ++ ")" := by
  rw [storedProcedure_ok_eq decl sig tag hsig htag] at hsp
  obtain rfl := Except.ok.inj hsp
  simp only [call_rollup, use_js, List.map_map]
  rfl

/-- C1 witness: the amended shape at the concrete output_message example. -/
theorem c1_entry_script_shape_witness :
    (call_rollup (Except.ok rbEmpty) "temp-0" "output_message.ts" spC1).1 =
      "import \x7b" ++ declC1.name ++ "\x7d from \x27../" ++ moduleName "output_message.ts"
        ++ "\x27\n__result = " ++ declC1.name ++ "("
        ++ ("snowflake"
            ++ String.join ((sigC1.params.drop 1).map fun p => ", " ++ toUpperCase p.name))
        ++ ")" :=
  c1_entry_script_shape (Except.ok rbEmpty) "temp-0" "output_message.ts" declC1 sigC1 tagC1
    spC1 rfl rfl rfl

/-- C2 counterexample: an error thrown by the top-level rollup build call,
which performs dependency resolution, propagates out of call_rollup as an
exception instead of being returned as Diagnostics. -/
theorem c2_rollup_error_escapes_cex :
    (call_rollup (Except.error "Error: Could not resolve entry module") "temp-0" "f.ts"
        spC1).2 =
      Except.error "Error: Could not resolve entry module" := rfl

/-- C2 (amended): an error thrown while generating the bundled output is
caught and returned as a Diagnostics value, and a successful generation
returns the concatenated chunk codes; but an error thrown by the initial
rollup build call, which sits outside the try block, propagates as an
exception past call_rollup. -/
theorem c2_generate_errors_captured (rb : RollupBuild) (tmpDir fileName : String)
    (sp : StoredProcedure) :
    (∀ e, rb.generateResult = Except.error e →
      (call_rollup (Except.ok rb) tmpDir fileName sp).2 =
        Except.ok (Sum.inr { messages := [e] })) ∧
    (∀ output, rb.generateResult = Except.ok output →
      (call_rollup (Except.ok rb) tmpDir fileName sp).2 =
        Except.ok (Sum.inl (String.join ((output.filter isChunk).map chunkCode)))) ∧
    (∀ e, (call_rollup (Except.error e) tmpDir fileName sp).2 = Except.error e) := by
  refine ⟨?_, ?_, fun e => rfl⟩ <;> intro x hx <;> simp [call_rollup, hx]

/-- C2 witness: a generate error at a concrete build is returned as
Diagnostics. -/
theorem c2_generate_errors_captured_witness :
    (call_rollup (Except.ok rbGenErr) "temp-0" "f.ts" spC1).2 =
      Except.ok (Sum.inr { messages := ["gen boom"] }) :=
  (c2_generate_errors_captured rbGenErr "temp-0" "f.ts" spC1).1 "gen boom" rfl

/-- C3 counterexample: when the bundler returns diagnostics, pack returns
them at once and the scratch directory it just created is never removed, so
the deletion does not happen on every exit path. -/
theorem c3_scratch_dir_leak_cex :
    (pack diagBundler "f.ts" [spC1]).2 =
      [FsEvent.mkdtemp "temp-0", FsEvent.bundlerCall "temp-0"] ∧
    FsEvent.rm "temp-0" true ∉ (pack diagBundler "f.ts" [spC1]).2 := by
  refine ⟨rfl, ?_⟩
  decide

/-- C3 (amended): the scratch directory is created immediately before the
bundler call; when the bundler returns a script it is recursively deleted
after the statement is rendered and before the next descriptor is
processed, but when the bundler returns diagnostics, or throws, pack exits
without deleting it. -/
theorem c3_scratch_dir_lifecycle (bundler : Bundler) (fileName : String)
    (sp : StoredProcedure) (rest : List StoredProcedure) (i : Nat) :
    (∀ bundle, bundler (tmpName i) fileName sp = Except.ok (Sum.inl bundle) →
      packGo bundler fileName (sp :: rest) i =
        (consCode (spCode sp bundle) (packGo bundler fileName rest (i + 1)).1,
         FsEvent.mkdtemp (tmpName i) :: FsEvent.bundlerCall (tmpName i)
           :: FsEvent.rm (tmpName i) true :: (packGo bundler fileName rest (i + 1)).2)) ∧
    (∀ diag, bundler (tmpName i) fileName sp = Except.ok (Sum.inr diag) →
      packGo bundler fileName (sp :: rest) i =
        (Except.ok (Sum.inr diag),
         [FsEvent.mkdtemp (tmpName i), FsEvent.bundlerCall (tmpName i)])) ∧
    (∀ e, bundler (tmpName i) fileName sp = Except.error e →
      packGo bundler fileName (sp :: rest) i =
        (Except.error e,
         [FsEvent.mkdtemp (tmpName i), FsEvent.bundlerCall (tmpName i)])) := by
  refine ⟨?_, ?_, ?_⟩ <;> intro x hx <;> simp [packGo, hx]

/-- C3 witness: the success-path lifecycle at a concrete descriptor. -/
theorem c3_scratch_dir_lifecycle_witness :
    packGo inlBundler "f.ts" [spC1] 0 =
      (consCode (spCode spC1 "B") (packGo inlBundler "f.ts" [] 1).1,
       FsEvent.mkdtemp (tmpName 0) :: FsEvent.bundlerCall (tmpName 0)
         :: FsEvent.rm (tmpName 0) true :: (packGo inlBundler "f.ts" [] 1).2) :=
  (c3_scratch_dir_lifecycle inlBundler "f.ts" spC1 [] 0).1 "B" rfl

/-- C4 counterexample: with one module holding a marked declaration with
zero call signatures and one clean module, the thrown signature-count error
crosses the module boundary into the batch orchestrator: main rejects with
that exception and produces no exit decision at all. -/
theorem c4_batch_exception_cex :
    main [compile inlBundler moduleAmbig, compile inlBundler moduleClean] =
      Except.error "Function f has 0 signatures ?!" := rfl

/-- C4 (amended): a hard error thrown in one module pipeline, such as a
marked declaration whose type resolves to other than one call signature, is
not contained to that module: it propagates through Promise.all, the whole
batch rejects with the exception, and main never reaches its pass or fail
decision. -/
theorem c4_hard_error_rejects_batch (bundler : Bundler)
    (pre post : List (Except String ((List String) ⊕ Diagnostics)))
    (m : ModuleInput) (decl : FunctionDeclaration)
    (hfound : m.sourceFileFound = true) (hmem : decl ∈ m.decls)
    (helig : isStoredProcedure decl = true) (hambig : decl.signatures.length ≠ 1) :
    ∃ e, main (pre ++ compile bundler m :: post) = Except.error e := by
  obtain ⟨e1, he1⟩ := storedProcedures_error_of_mem hmem helig
    ⟨_, storedProcedure_error_of_count decl hambig⟩
  have hcomp : compile bundler m = Except.error e1 := by
    simp [compile, hfound, he1]
  have hmem2 : Except.error e1 ∈ pre ++ compile bundler m :: post := by
    rw [← hcomp]
    exact List.mem_append_right pre (List.mem_cons_self _ _)
  obtain ⟨e2, h2⟩ := promiseAll_error_of_mem hmem2
  exact ⟨e2, by simp [main, h2]⟩

/-- C4 witness: the amended behavior at a concrete one-module batch. -/
theorem c4_hard_error_rejects_batch_witness :
    ∃ e, main ([] ++ compile inlBundler moduleAmbig :: []) = Except.error e :=
  c4_hard_error_rejects_batch inlBundler [] [] moduleAmbig declAmbig rfl
    (by decide) (by decide) (by decide)

/-- C5: the failing inputs toString and constructor, unrecognized by the
table, do not map to VARIANT: the lookup finds the truthy method or
constructor inherited from Object.prototype and returns that non-string
value, while an ordinary unrecognized name and a recognized key behave as
the claim says. -/
theorem c5_mapToSQL_proto_leak :
    mapToSQL "toString" = Sum.inr { key := "toString" } ∧
    mapToSQL "constructor" = Sum.inr { key := "constructor" } ∧
    mapToSQL "Snowflake" = Sum.inl "VARIANT" ∧
    mapToSQL "string" = Sum.inl "STRING" := by
  refine ⟨?_, ?_, ?_, ?_⟩ <;> decide

/-- C6: a declaration whose type resolves to a call-signature count other
than one makes storedProcedure throw an error spelling out the declaration
name and the signature count, and with exactly one signature on an eligible
declaration no error is thrown. -/
theorem c6_signature_count_check (decl : FunctionDeclaration) :
    (decl.signatures.length ≠ 1 →
      storedProcedure decl = Except.error
        ("Function " ++ decl.name ++ " has " ++ toString decl.signatures.length
          ++ " signatures ?!")) ∧
    (∀ sig tag, decl.signatures = [sig] → storedProcedureTag decl = some tag →
      ∃ sp, storedProcedure decl = Except.ok sp) := by
  constructor
  · exact fun h => storedProcedure_error_of_count decl h
  · intro sig tag hsig htag
    exact ⟨_, storedProcedure_ok_eq decl sig tag hsig htag⟩

/-- C6 witness: the zero-signature declaration fails with the counting
message, and the well-formed declaration succeeds. -/
theorem c6_signature_count_check_witness :
    storedProcedure declAmbig = Except.error
      ("Function " ++ declAmbig.name ++ " has " ++ toString declAmbig.signatures.length
        ++ " signatures ?!") ∧
    ∃ sp, storedProcedure declC1 = Except.ok sp :=
  ⟨(c6_signature_count_check declAmbig).1 (by decide),
   (c6_signature_count_check declC1).2 sigC1 tagC1 rfl rfl⟩

/-- C7: the first call-signature parameter contributes no entry to the SQL
parameter list, whose entries are exactly the uppercased names of the
remaining parameters in order, and the rendered signature interpolates
exactly those entries. -/
theorem c7_params_dropped_uppercased (decl : FunctionDeclaration) (sig : Sig)
    (tag : JSDocTag) (sp : StoredProcedure) (hsig : decl.signatures = [sig])
    (htag : storedProcedureTag decl = some tag)
    (hsp : storedProcedure decl = Except.ok sp) :
    sp.params.map Param.name = (sig.params.drop 1).map (fun p => toUpperCase p.name) ∧
    sqlSignature sp = sp.name ++ "(" ++ String.intercalate ", "
        ((sig.params.drop 1).map fun p => toUpperCase p.name ++ " " ++ interpolate (mapToSQL p.type))
      ++ ")" ++ " returns " ++ interpolate sp.returnType := by
  rw [storedProcedure_ok_eq decl sig tag hsig htag] at hsp
  obtain rfl := Except.ok.inj hsp
  constructor
  · simp only [List.map_map]
    rfl
  · simp only [sqlSignature, List.map_map]
    rfl

/-- C7 witness: the parameter dropping and uppercasing at the concrete
output_message example. -/
theorem c7_params_dropped_uppercased_witness :
    spC1.params.map Param.name = (sigC1.params.drop 1).map (fun p => toUpperCase p.name) ∧
    sqlSignature spC1 = spC1.name ++ "(" ++ String.intercalate ", "
        ((sigC1.params.drop 1).map fun p =>
          toUpperCase p.name ++ " " ++ interpolate (mapToSQL p.type))
      ++ ")" ++ " returns " ++ interpolate spC1.returnType :=
  c7_params_dropped_uppercased declC1 sigC1 tagC1 spC1 rfl rfl rfl

/-- C8: batch aggregation is all or nothing: when some module outcome is a
Diagnostics value the run exits 1, writes every diagnostic message of every
failing module to standard error in module order then message order, and
prints no statement; when no module produced diagnostics the run exits 0
and logs the non-empty rendered statements in input-module order joined by
exactly three newline characters. -/
theorem c8_batch_aggregation (rs : List ((List String) ⊕ Diagnostics)) :
    main (rs.map Except.ok) =
      Except.ok
        (if rs.any isDiagnostics then
          { exitCode := 1, stdout := [],
            stderr := (rs.filterMap diagPart).flatMap Diagnostics.messages }
         else
          { exitCode := 0,
            stdout := [String.intercalate "\n\n\n"
              ((rs.flatMap okPart).filter fun s => 0 < s.length)],
            stderr := [] }) := by
  have h1 : main (rs.map Except.ok) = Except.ok (mainAgg rs) := by
    unfold main
    rw [promiseAll_map_ok]
  rw [h1]
  congr 1
  by_cases hd : rs.any isDiagnostics = true
  · have hp := (filterMap_diag_length_pos rs).mpr hd
    simp [mainAgg, hd, hp]
  · have hd2 : ¬0 < (rs.filterMap diagPart).length :=
      fun hp => hd ((filterMap_diag_length_pos rs).mp hp)
    simp [mainAgg, hd, hd2]

/-- C9: at the failing input, a marker comment naming the Object.prototype
property toString, the rights lookup returns the inherited truthy method
and the rendered statement carries the clause execute as undefined, where
the claim requires no clause at all; the caller comment still renders the
CALLER clause and a missing comment still renders none. -/
theorem c9_rights_undefined_clause :
    storedProcedure declProto = Except.ok spProto ∧
    sqlRights spProto.rights = " execute as undefined" ∧
    spCode spProto "B" = "create or replace procedure proto_fun() returns STRING language javascript execute as undefined as $$\n    let __result = null;\n\n    B\n    return __result;\n$$;" ∧
    storedProcedure declCaller = Except.ok spCaller ∧
    sqlRights spCaller.rights = " execute as CALLER" ∧
    storedProcedure declC1 = Except.ok spC1 ∧
    sqlRights spC1.rights = "" := by
  refine ⟨rfl, rfl, rfl, rfl, rfl, rfl, rfl⟩

/-- C10: the procedure name in the rendered statement is the source
identifier with its original casing; uppercasing touches only parameter
names. -/
theorem c10_procedure_name_casing (decl : FunctionDeclaration) (sig : Sig)
    (tag : JSDocTag) (sp : StoredProcedure) (bundle : String)
    (hsig : decl.signatures = [sig]) (htag : storedProcedureTag decl = some tag)
    (hsp : storedProcedure decl = Except.ok sp) :
    sp.name = decl.name ∧
    spCode sp bundle = "create or replace procedure "
      ++ (decl.name ++ "("
          ++ String.intercalate ", "
            (sp.params.map fun p => p.name ++ " " ++ interpolate p.type)
          ++ ")" ++ " returns " ++ interpolate sp.returnType)
      ++ " language javascript" ++ sqlRights sp.rights
      ++ " as $$\n    let __result = null;\n\n    "
      ++ String.intercalate "\n    " (splitLines bundle)
      ++ "\n    return __result;\n$$;" := by
  rw [storedProcedure_ok_eq decl sig tag hsig htag] at hsp
  obtain rfl := Except.ok.inj hsp
  exact ⟨rfl, rfl⟩

/-- C10 witness: the mixed-case identifier Current_Total is rendered
verbatim while its parameter is uppercased. -/
theorem c10_procedure_name_casing_witness :
    spC10.name = declC10.name ∧
    spCode spC10 "B" = "create or replace procedure "
      ++ (declC10.name ++ "("
          ++ String.intercalate ", "
            (spC10.params.map fun p => p.name ++ " " ++ interpolate p.type)
          ++ ")" ++ " returns " ++ interpolate spC10.returnType)
      ++ " language javascript" ++ sqlRights spC10.rights
      ++ " as $$\n    let __result = null;\n\n    "
      ++ String.intercalate "\n    " (splitLines "B")
      ++ "\n    return __result;\n$$;" :=
  c10_procedure_name_casing declC10 sigC10 tagC1 spC10 "B" rfl rfl rfl

end Spt
